import Mathlib

/-!
Shallow embedding of the `mixcraft` renderer bootstrap (Rust), and proofs of
the testable properties stated in its specification.

Each Rust module is embedded in its own namespace:
* `Wgpu`        — the fragments of the `wgpu` value vocabulary that the wrappers
                  construct (descriptors, flags, enums); GPU calls are modelled
                  as records/trace elements of the arguments passed to them.
* `TypesMod`    — `src/types/mod.rs` (Vertex, BufferInitDescriptor, Buffer)
* `TypesBuffer` — `src/types/buffer.rs` (BufferInitDescriptor, Buffer)
* `BindGroupMod`— `src/types/bind_group.rs`
* `TextureMod`  — `src/types/texture.rs`
* `Binding`     — `src/renderer/types/binding/group.rs`
* `RTexture`    — `src/renderer/types/texture.rs`
* `Rend`        — `src/renderer/mod.rs` (Renderer)
* `MainLoop`    — `src/main.rs` (event-loop redraw handling)

Machine integers are `Nat` with an explicit `% 2 ^ 32` at the points where the
source performs a `usize → u32` cast or `u32` arithmetic that can wrap.
-/

namespace Mixcraft

/-- `2^32`, the modulus of `u32` values. -/
def u32Mod : Nat := 2 ^ 32

/-- Model of `std::num::NonZeroU32::new` applied to a `u32` value: `None` when
the value is `0`, `Some` of it otherwise. -/
def nonZeroU32 (n : Nat) : Option Nat := if n = 0 then none else some n

namespace Wgpu

/-- `wgpu::BufferUsages` bits (the ones the sources mention). -/
def BufferUsages.INDEX : Nat := 16

def BufferUsages.VERTEX : Nat := 32

/-- `wgpu::TextureUsages` bits (the ones the sources mention). -/
def TextureUsages.COPY_SRC : Nat := 1

def TextureUsages.COPY_DST : Nat := 2

def TextureUsages.TEXTURE_BINDING : Nat := 4

def TextureUsages.RENDER_ATTACHMENT : Nat := 16

/-- `wgpu::ShaderStages` bits. -/
def ShaderStages.VERTEX : Nat := 1

def ShaderStages.FRAGMENT : Nat := 2

end Wgpu

namespace TypesBuffer

/-- `src/types/buffer.rs`: `BufferInitDescriptor<'a, A>` — label, usage flags
and the typed contents slice. -/
structure BufferInitDescriptor (α : Type) where
  label : Option String
  usage : Nat
  contents : List α

/-- `src/types/buffer.rs`: `Buffer` — a created GPU buffer handle plus the
stored element count (a `u32`). -/
structure Buffer where
  inner : Unit
  len : Nat
deriving DecidableEq

/-- `src/types/buffer.rs`: `Buffer::new` — `let len = desc.contents.len() as u32`
(`usize → u32` cast, hence reduction mod `2^32`) and one `create_buffer_init`
call with the raw descriptor. -/
def Buffer.new {α : Type} (_device : Nat) (desc : BufferInitDescriptor α) : Buffer :=
  { inner := (), len := desc.contents.length % u32Mod }

/-- `src/types/buffer.rs`: `Buffer::is_empty` — `self.len == 0`. -/
def Buffer.is_empty (self : Buffer) : Bool := self.len == 0

end TypesBuffer

namespace TypesMod

/-- `src/types/mod.rs`: `BufferInitDescriptor<'a, A>` (identical fields to the
one in `src/types/buffer.rs`). -/
structure BufferInitDescriptor (α : Type) where
  label : Option String
  usage : Nat
  contents : List α

/-- `src/types/mod.rs`: `Buffer` — a created GPU buffer handle plus the stored
element count (a `u32`). -/
structure Buffer where
  inner : Unit
  len : Nat
deriving DecidableEq

/-- `src/types/mod.rs`: `Buffer::new` — `let len = desc.contents.len() as u32`
and one `create_buffer_init` call. -/
def Buffer.new {α : Type} (_device : Nat) (desc : BufferInitDescriptor α) : Buffer :=
  { inner := (), len := desc.contents.length % u32Mod }

/-- `src/types/mod.rs`: `Buffer::is_empty` — `self.len == 0`. -/
def Buffer.is_empty (self : Buffer) : Bool := self.len == 0

end TypesMod

/-- A concrete contents list of length `2^32` (the smallest length at which the
`usize → u32` cast in `Buffer::new` loses information). Made irreducible right
after its length lemma below, so no later proof step ever tries to evaluate it. -/
def bigContents : List Nat := List.replicate u32Mod 0

namespace Wgpu

/-- `wgpu::BindingType`, with payloads reduced to plain data (none of the
wrappers inspects them; they are carried through unchanged). -/
inductive BindingType
  | buffer (ty : Nat) (has_dynamic_offset : Bool) (min_binding_size : Option Nat)
  | sampler (ty : Nat)
  | texture (sample_type_filterable : Bool) (view_dimension : Nat) (multisampled : Bool)
  | storageTexture (access : Nat) (format : Nat) (view_dimension : Nat)
deriving DecidableEq

/-- `wgpu::BindingResource`: single resources carry an abstract handle, the
three array variants carry the list of handles (whose length is what
`into_entry`/`into_entries` reads off). -/
inductive BindingResource
  | buffer (binding : Nat)
  | bufferArray (bindings : List Nat)
  | sampler (s : Nat)
  | samplerArray (samplers : List Nat)
  | textureView (view : Nat)
  | textureViewArray (views : List Nat)
deriving DecidableEq

/-- The length of the handle list of an array-variant resource; `none` for the
three non-array variants. (A helper for stating claims, not part of the source.) -/
def BindingResource.arrayLen : BindingResource → Option Nat
  | .bufferArray a => some a.length
  | .samplerArray a => some a.length
  | .textureViewArray a => some a.length
  | _ => none

/-- `wgpu::BindGroupLayoutEntry`. -/
structure BindGroupLayoutEntry where
  binding : Nat
  visibility : Nat
  ty : BindingType
  count : Option Nat
deriving DecidableEq

/-- `wgpu::BindGroupEntry`. -/
structure BindGroupEntry where
  binding : Nat
  resource : BindingResource
deriving DecidableEq

/-- `wgpu::BindGroupLayoutDescriptor` (label + entries). -/
structure BindGroupLayoutDescriptor where
  label : Option String
  entries : List BindGroupLayoutEntry
deriving DecidableEq

/-- The two device calls a bind-group wrapper issues, in order: one
`create_bind_group_layout` with `layout_desc`, then one `create_bind_group`
against that layout with `bind_label`/`bind_entries`. -/
structure BindGroupCalls where
  layout_desc : BindGroupLayoutDescriptor
  bind_label : Option String
  bind_entries : List BindGroupEntry
deriving DecidableEq

end Wgpu

namespace Binding

/-- `src/renderer/types/binding/group.rs`: `Entry` — a single resource in the
group. -/
structure Entry where
  binding : Nat
  visibility : Nat
  ty : Wgpu.BindingType
  resource : Wgpu.BindingResource
deriving DecidableEq

/-- `src/renderer/types/binding/group.rs`: `Entry::into_entry` — the layout
entry copies binding/visibility/ty and sets `count` to
`NonZeroU32::new(a.len() as u32)` for the three array resource variants
(`None` otherwise); the bind entry pairs the binding index with the resource. -/
def Entry.into_entry (self : Entry) : Wgpu.BindGroupLayoutEntry × Wgpu.BindGroupEntry :=
  ({ binding := self.binding
     visibility := self.visibility
     ty := self.ty
     count := match self.resource with
       | .bufferArray a => nonZeroU32 (a.length % u32Mod)
       | .samplerArray a => nonZeroU32 (a.length % u32Mod)
       | .textureViewArray a => nonZeroU32 (a.length % u32Mod)
       | _ => none },
   { binding := self.binding, resource := self.resource })

/-- `src/renderer/types/binding/group.rs`: `Group::new` — unzips the per-entry
pairs, creates the layout (label suffixed with `_layout`), then the bind group. -/
def Group.new (_device : Nat) (label : Option String) (resources : List Entry) :
    Wgpu.BindGroupCalls :=
  let pairs := (resources.map Entry.into_entry).unzip
  { layout_desc := { label := label.map (fun x => x ++ "_layout"), entries := pairs.1 }
    bind_label := label
    bind_entries := pairs.2 }

end Binding

namespace BindGroupMod

/-- `src/types/bind_group.rs`: `BindingResource` — same fields as
`Binding.Entry`. -/
structure BindingResource where
  binding : Nat
  visibility : Nat
  ty : Wgpu.BindingType
  resource : Wgpu.BindingResource
deriving DecidableEq

/-- `src/types/bind_group.rs`: `BindingResource::into_entries` — identical
derivation to `Entry::into_entry`. -/
def BindingResource.into_entries (self : BindingResource) :
    Wgpu.BindGroupLayoutEntry × Wgpu.BindGroupEntry :=
  ({ binding := self.binding
     visibility := self.visibility
     ty := self.ty
     count := match self.resource with
       | .bufferArray a => nonZeroU32 (a.length % u32Mod)
       | .samplerArray a => nonZeroU32 (a.length % u32Mod)
       | .textureViewArray a => nonZeroU32 (a.length % u32Mod)
       | _ => none },
   { binding := self.binding, resource := self.resource })

/-- Field-wise identification with the other wrapper's entry type (the two
structs are declared with literally the same fields). -/
def BindingResource.toEntry (self : BindingResource) : Binding.Entry :=
  { binding := self.binding
    visibility := self.visibility
    ty := self.ty
    resource := self.resource }

/-- `src/types/bind_group.rs`: `BindGroupDescriptor`. -/
structure BindGroupDescriptor where
  layout_label : Option String
  layout_entries : List Wgpu.BindGroupLayoutEntry
  bind_label : Option String
  bind_entries : List Wgpu.BindGroupEntry
deriving DecidableEq

/-- `src/types/bind_group.rs`: `BindGroupDescriptor::new` — label suffixed with
`_layout`, per-resource entry pairs unzipped. -/
def BindGroupDescriptor.new (label : Option String) (resources : List BindingResource) :
    BindGroupDescriptor :=
  let pairs := (resources.map BindingResource.into_entries).unzip
  { layout_label := label.map (fun x => x ++ "_layout")
    layout_entries := pairs.1
    bind_label := label
    bind_entries := pairs.2 }

/-- `src/types/bind_group.rs`: `BindGroup::new` — creates the layout from the
descriptor's layout label/entries, then the bind group with the bind
label/entries. -/
def BindGroup.new (_device : Nat) (desc : BindGroupDescriptor) : Wgpu.BindGroupCalls :=
  { layout_desc := { label := desc.layout_label, entries := desc.layout_entries }
    bind_label := desc.bind_label
    bind_entries := desc.bind_entries }

end BindGroupMod

namespace Wgpu

/-- `wgpu::Extent3d`. -/
structure Extent3d where
  width : Nat
  height : Nat
  depth_or_array_layers : Nat
deriving DecidableEq

/-- `wgpu::TextureDimension`. -/
inductive TextureDimension
  | D1
  | D2
  | D3
deriving DecidableEq

/-- `wgpu::TextureFormat` (the formats the sources mention). -/
inductive TextureFormat
  | Rgba8UnormSrgb
  | Rgba8Unorm
deriving DecidableEq

/-- `wgpu::TextureDescriptor`. -/
structure TextureDescriptor where
  label : Option String
  mip_level_count : Nat
  sample_count : Nat
  dimension : TextureDimension
  format : TextureFormat
  usage : Nat
  size : Extent3d
deriving DecidableEq

/-- `wgpu::Origin3d`. -/
structure Origin3d where
  x : Nat
  y : Nat
  z : Nat
deriving DecidableEq

/-- `wgpu::Origin3d::ZERO`. -/
def Origin3d.ZERO : Origin3d := ⟨0, 0, 0⟩

/-- `wgpu::ImageDataLayout` — offset plus the two `Option<NonZeroU32>` pitch
fields. -/
structure ImageDataLayout where
  offset : Nat
  bytes_per_row : Option Nat
  rows_per_image : Option Nat
deriving DecidableEq

/-- The arguments of one `queue.write_texture` call: destination mip/origin,
the length of the supplied byte slice, the data layout, and the copy extent. -/
structure WriteTextureCall where
  dest_mip_level : Nat
  dest_origin : Origin3d
  data_len : Nat
  layout : ImageDataLayout
  size : Extent3d
deriving DecidableEq

/-- The number of source bytes a `write_texture` call with this layout and a
depth-1 extent of a 4-byte-per-texel format consumes: `bytes_per_row` for each
of the first `height - 1` rows plus the tightly packed `4 * width` bytes of the
last row; `0` when the extent is empty. -/
def ImageDataLayout.copiedBytes (layout : ImageDataLayout) (size : Extent3d) : Nat :=
  if size.width = 0 ∨ size.height = 0 ∨ size.depth_or_array_layers = 0 then 0
  else (size.height - 1) * layout.bytes_per_row.getD 0 + 4 * size.width

/-- `wgpu::AddressMode`. -/
inductive AddressMode
  | ClampToEdge
  | Repeat
  | MirrorRepeat
deriving DecidableEq

/-- `wgpu::FilterMode`. -/
inductive FilterMode
  | Nearest
  | Linear
deriving DecidableEq

/-- `wgpu::SamplerDescriptor` — addressing, filtering, and the remaining
`..Default::default()` option fields (the two floating-point LOD clamps are
omitted: no claim and no wrapper reads them). -/
structure SamplerDescriptor where
  address_mode_u : AddressMode
  address_mode_v : AddressMode
  address_mode_w : AddressMode
  mag_filter : FilterMode
  min_filter : FilterMode
  mipmap_filter : FilterMode
  compare : Option Nat
  anisotropy_clamp : Option Nat
  border_color : Option Nat
deriving DecidableEq

/-- `image::DynamicImage`: its `dimensions()` pair (two `u32`s) and its raw
`as_bytes()` slice. -/
structure DynamicImage where
  width : Nat
  height : Nat
  data : List Nat
deriving DecidableEq

/-- The device/queue calls one `Texture::new` issues, in order: one
`create_texture`, one `queue.write_texture`, one default-descriptor
`create_view`, one `create_sampler`. -/
structure TextureCalls where
  created : TextureDescriptor
  write : WriteTextureCall
  view_default : Bool
  sampler : SamplerDescriptor
deriving DecidableEq

end Wgpu

namespace TextureMod

/-- `src/types/texture.rs`: `TextureDescriptor` — note the caller-supplied
`usage` field. -/
structure TextureDescriptor where
  label : Option String
  mip_level_count : Nat
  sample_count : Nat
  usage : Nat
  image : Wgpu.DynamicImage
deriving DecidableEq

/-- `src/types/texture.rs`: `TextureDescriptor::get_size` — the image's
dimensions with depth 1. -/
def TextureDescriptor.get_size (self : TextureDescriptor) : Wgpu.Extent3d :=
  { width := self.image.width, height := self.image.height, depth_or_array_layers := 1 }

/-- `src/types/texture.rs`: `TextureDescriptor::get_data` — the image's raw
bytes. -/
def TextureDescriptor.get_data (self : TextureDescriptor) : List Nat :=
  self.image.data

/-- `src/types/texture.rs`: `TextureDescriptor::get_raw` — D2,
`Rgba8UnormSrgb`, and the descriptor's own `usage`. -/
def TextureDescriptor.get_raw (self : TextureDescriptor) : Wgpu.TextureDescriptor :=
  { label := self.label
    mip_level_count := self.mip_level_count
    sample_count := self.sample_count
    dimension := .D2
    format := .Rgba8UnormSrgb
    usage := self.usage
    size := self.get_size }

/-- `src/types/texture.rs`: `Texture::new` — create the texture from `get_raw`,
upload with `bytes_per_row = NonZeroU32::new(4 * width)` (a `u32` product) and
`rows_per_image = NonZeroU32::new(height)`, create a default view, and create
either the supplied sampler or the repeat/nearest default. -/
def Texture.new (_device _queue : Nat) (desc : TextureDescriptor)
    (sampler_desc : Option Wgpu.SamplerDescriptor) : Wgpu.TextureCalls :=
  let size := desc.get_size
  { created := desc.get_raw
    write :=
      { dest_mip_level := 0
        dest_origin := Wgpu.Origin3d.ZERO
        data_len := desc.get_data.length
        layout :=
          { offset := 0
            bytes_per_row := nonZeroU32 ((4 * size.width) % u32Mod)
            rows_per_image := nonZeroU32 size.height }
        size := size }
    view_default := true
    sampler :=
      match sampler_desc with
      | some s => s
      | none =>
        { address_mode_u := .Repeat
          address_mode_v := .Repeat
          address_mode_w := .Repeat
          mag_filter := .Nearest
          min_filter := .Nearest
          mipmap_filter := .Nearest
          compare := none
          anisotropy_clamp := none
          border_color := none } }

end TextureMod

namespace RTexture

/-- `src/renderer/types/texture.rs`: `TextureDescriptor` — no `usage` field. -/
structure TextureDescriptor where
  label : Option String
  mip_level_count : Nat
  sample_count : Nat
  image : Wgpu.DynamicImage
deriving DecidableEq

/-- `src/renderer/types/texture.rs`: `TextureDescriptor::size`. -/
def TextureDescriptor.size (self : TextureDescriptor) : Wgpu.Extent3d :=
  { width := self.image.width, height := self.image.height, depth_or_array_layers := 1 }

/-- `src/renderer/types/texture.rs`: `TextureDescriptor::as_raw` — D2,
`Rgba8UnormSrgb`, usage hardcoded to `TEXTURE_BINDING | COPY_DST`. -/
def TextureDescriptor.as_raw (self : TextureDescriptor) : Wgpu.TextureDescriptor :=
  { label := self.label
    mip_level_count := self.mip_level_count
    sample_count := self.sample_count
    dimension := .D2
    format := .Rgba8UnormSrgb
    usage := Wgpu.TextureUsages.TEXTURE_BINDING ||| Wgpu.TextureUsages.COPY_DST
    size := self.size }

/-- `src/renderer/types/texture.rs`: `Texture::new` — same call sequence as the
`src/types/texture.rs` constructor, with `as_raw` instead of `get_raw` and the
image's bytes accessed directly. -/
def Texture.new (_device _queue : Nat) (desc : TextureDescriptor)
    (sampler_desc : Option Wgpu.SamplerDescriptor) : Wgpu.TextureCalls :=
  let size := desc.size
  { created := desc.as_raw
    write :=
      { dest_mip_level := 0
        dest_origin := Wgpu.Origin3d.ZERO
        data_len := desc.image.data.length
        layout :=
          { offset := 0
            bytes_per_row := nonZeroU32 ((4 * size.width) % u32Mod)
            rows_per_image := nonZeroU32 size.height }
        size := size }
    view_default := true
    sampler :=
      match sampler_desc with
      | some s => s
      | none =>
        { address_mode_u := .Repeat
          address_mode_v := .Repeat
          address_mode_w := .Repeat
          mag_filter := .Nearest
          min_filter := .Nearest
          mipmap_filter := .Nearest
          compare := none
          anisotropy_clamp := none
          border_color := none } }

end RTexture

namespace Winit

/-- `winit::dpi::PhysicalSize<u32>`. -/
structure PhysicalSize where
  width : Nat
  height : Nat
deriving DecidableEq

end Winit

namespace Wgpu

/-- `wgpu::PresentMode` (the modes the sources mention). -/
inductive PresentMode
  | Immediate
  | Mailbox
  | Fifo
deriving DecidableEq

/-- `wgpu::SurfaceConfiguration` — the surface format is an abstract handle
(the code takes whatever `get_supported_formats(..)[0]` returns). -/
structure SurfaceConfiguration where
  usage : Nat
  format : Nat
  width : Nat
  height : Nat
  present_mode : PresentMode
deriving DecidableEq

/-- `wgpu::SurfaceError`. -/
inductive SurfaceError
  | Timeout
  | Outdated
  | Lost
  | OutOfMemory
deriving DecidableEq

/-- `wgpu::Color` — the four double-precision channels, kept as exact
rationals (the literals in the source are exact decimals). -/
structure Color where
  r : Rat
  g : Rat
  b : Rat
  a : Rat
deriving DecidableEq

/-- `wgpu::IndexFormat`. -/
inductive IndexFormat
  | Uint16
  | Uint32
deriving DecidableEq

/-- `wgpu::VertexFormat` (the formats the sources mention). -/
inductive VertexFormat
  | Float32x2
  | Float32x3
  | Float32x4
deriving DecidableEq

/-- Number of float components of a vertex format. -/
def VertexFormat.components : VertexFormat → Nat
  | .Float32x2 => 2
  | .Float32x3 => 3
  | .Float32x4 => 4

/-- Byte size of a vertex format (`4` bytes per `f32` component). -/
def VertexFormat.size : VertexFormat → Nat
  | .Float32x2 => 8
  | .Float32x3 => 12
  | .Float32x4 => 16

/-- `wgpu::VertexStepMode`. -/
inductive VertexStepMode
  | Vertex
  | Instance
deriving DecidableEq

/-- `wgpu::VertexAttribute`. -/
structure VertexAttribute where
  format : VertexFormat
  offset : Nat
  shader_location : Nat
deriving DecidableEq

/-- `wgpu::VertexBufferLayout`. -/
structure VertexBufferLayout where
  array_stride : Nat
  step_mode : VertexStepMode
  attributes : List VertexAttribute
deriving DecidableEq

end Wgpu

namespace TypesMod

/-- `src/types/mod.rs`: `Vertex` — `#[repr(C)]` with `position: [f32; 3]` and
`color: [f32; 4]`; component values are exact rationals here. -/
structure Vertex where
  position : Rat × Rat × Rat
  color : Rat × Rat × Rat × Rat
deriving DecidableEq

/-- The number of `f32`s in the `position` field. -/
def Vertex.position_floats : Nat := 3

/-- The number of `f32`s in the `color` field. -/
def Vertex.color_floats : Nat := 4

/-- `std::mem::size_of::<Vertex>()` under `repr(C)`: seven 4-byte floats, no
padding (every field is 4-aligned). -/
def Vertex.size_of : Nat := 4 * (Vertex.position_floats + Vertex.color_floats)

/-- The byte offset of the `color` field: right after the three position
floats. -/
def Vertex.color_offset : Nat := 4 * Vertex.position_floats

/-- `src/types/mod.rs`: `Vertex::ATTRS` —
`vertex_attr_array![0 => Float32x3, 1 => Float32x3]`; the macro assigns shader
locations in order and gives each attribute the cumulative byte size of the
previous formats as offset. -/
def Vertex.ATTRS : List Wgpu.VertexAttribute :=
  [ { format := .Float32x3, offset := 0, shader_location := 0 },
    { format := .Float32x3, offset := Wgpu.VertexFormat.size .Float32x3,
      shader_location := 1 } ]

/-- `src/types/mod.rs`: `Vertex::buffer_layout` — stride `size_of::<Vertex>()`,
per-vertex step mode, attributes `ATTRS`. -/
def Vertex.buffer_layout : Wgpu.VertexBufferLayout :=
  { array_stride := Vertex.size_of
    step_mode := .Vertex
    attributes := Vertex.ATTRS }

end TypesMod

namespace RendererTypes

/-- Modelled from the spec: the file `src/renderer/types/buffer.rs` (the
buffer wrapper module `renderer/mod.rs` imports as `types::buffer`) is not
among the provided sources — only its callers are. Per spec §2/§4.1 the buffer
wrapper owns one GPU allocation created from the typed contents and records the
element count. -/
structure BufferInitDescriptor (α : Type) where
  label : Option String
  usage : Nat
  contents : List α

/-- Modelled from the spec: the renderer-side `Buffer` of the missing
`src/renderer/types/buffer.rs`; it owns the created buffer handle and reports
the element count via `len()`. -/
structure Buffer where
  inner : Unit
  len : Nat
deriving DecidableEq

/-- Modelled from the spec: `Buffer::new` allocates from the contents and
records the element count (spec §4.1: "returns a handle plus the element
count"). -/
def Buffer.new {α : Type} (_device : Nat) (desc : BufferInitDescriptor α) : Buffer :=
  { inner := (), len := desc.contents.length }

/-- Modelled from the spec: the renderer-side `Vertex` of the missing
`src/renderer/types/mod.rs` — spec §3: position (3 floats) and a texture
attribute (2 floats). -/
structure Vertex where
  position : Rat × Rat × Rat
  texture : Rat × Rat
deriving DecidableEq

end RendererTypes

namespace Rend

/-- A surface reconfiguration issued by `Renderer::resize`
(`surface.configure(&device, &config)`). -/
inductive Effect
  | configureSurface (device : Nat) (config : Wgpu.SurfaceConfiguration)
deriving DecidableEq

/-- `src/renderer/mod.rs`: the `Renderer` state. `surface`, `device`, `queue`,
`render_pipeline` and `diffuse_bind_group` are abstract handles. -/
structure Renderer where
  surface : Nat
  device : Nat
  queue : Nat
  config : Wgpu.SurfaceConfiguration
  size : Winit.PhysicalSize
  render_pipeline : Nat
  vbo : RendererTypes.Buffer
  ibo : RendererTypes.Buffer
  diffuse_bind_group : Nat
deriving DecidableEq

/-- `src/renderer/mod.rs`: the `VERTICES` constant of `get_data` — the fixed
quad's four vertices. -/
def VERTICES : List RendererTypes.Vertex :=
  [ { position := (0.5, 0.5, 0.0), texture := (1.0, 1.0) },
    { position := (-0.5, 0.5, 0.0), texture := (-1.0, 1.0) },
    { position := (-0.5, -0.5, 0.0), texture := (-1.0, -1.0) },
    { position := (0.5, -0.5, 0.0), texture := (1.0, -1.0) } ]

/-- `src/renderer/mod.rs`: the `INDICES` constant of `get_data` — six `u16`
indices forming two triangles. -/
def INDICES : List Nat := [0, 1, 2, 0, 2, 3]

/-- `src/renderer/mod.rs`: `Renderer::get_data` — the (vertex buffer, index
buffer) pair built from the two constants. -/
def get_data (device : Nat) : RendererTypes.Buffer × RendererTypes.Buffer :=
  (RendererTypes.Buffer.new device
     { label := some "Vertex Buffer", usage := Wgpu.BufferUsages.VERTEX, contents := VERTICES },
   RendererTypes.Buffer.new device
     { label := some "Index Buffer", usage := Wgpu.BufferUsages.INDEX, contents := INDICES })

/-- `src/renderer/mod.rs`: `Renderer::resize` — on strictly positive
dimensions, update `size` and the config's width/height and reconfigure the
surface; otherwise do nothing. -/
def Renderer.resize (self : Renderer) (new : Winit.PhysicalSize) :
    Renderer × List Effect :=
  if new.width > 0 && new.height > 0 then
    let config := { self.config with width := new.width, height := new.height }
    ({ self with size := new, config := config },
     [Effect.configureSurface self.device config])
  else
    (self, [])

/-- `src/renderer/mod.rs`: `Renderer::input` — always unhandled. -/
def Renderer.input (_self : Renderer) (_event : Nat) : Bool := false

/-- `src/renderer/mod.rs`: `Renderer::update` — a no-op. -/
def Renderer.update (self : Renderer) : Renderer := self

/-- The clear color of the render pass (`LoadOp::Clear`). -/
def clear_color : Wgpu.Color := { r := 0.09, g := 0.03, b := 0.01, a := 1.00 }

/-- One recorded GPU operation of a `render` call. -/
inductive GpuOp
  | createView
  | beginRenderPass (clear : Wgpu.Color)
  | setPipeline (pipeline : Nat)
  | setBindGroup (index : Nat) (group : Nat)
  | setVertexBuffer (slot : Nat)
  | setIndexBuffer (format : Wgpu.IndexFormat)
  | drawIndexed (index_start index_end : Nat) (base_vertex : Int)
      (inst_start inst_end : Nat)
  | endRenderPass
  | submit (buffers : Nat)
  | present
deriving DecidableEq

/-- Whether an op is an indexed draw. -/
def GpuOp.isDraw : GpuOp → Bool
  | .drawIndexed _ _ _ _ _ => true
  | _ => false

/-- Whether an op is a queue submission. -/
def GpuOp.isSubmit : GpuOp → Bool
  | .submit _ => true
  | _ => false

/-- Whether an op is a surface present. -/
def GpuOp.isPresent : GpuOp → Bool
  | .present => true
  | _ => false

/-- `src/renderer/mod.rs`: `Renderer::render`. `get_current_texture()?` either
fails — early return with the error, nothing recorded, state untouched — or
yields an image; then one render pass (clear, pipeline, bind group 0, vertex
buffer slot 0, `Uint16` index buffer, one `draw_indexed(0..ibo.len(), 0, 0..1)`)
is recorded, the single command buffer is submitted and the image presented. -/
def Renderer.render (self : Renderer) (acquired : Except Wgpu.SurfaceError Unit) :
    Renderer × List GpuOp × Except Wgpu.SurfaceError Unit :=
  match acquired with
  | .error e => (self, [], .error e)
  | .ok _ =>
    (self,
     [ .createView,
       .beginRenderPass clear_color,
       .setPipeline self.render_pipeline,
       .setBindGroup 0 self.diffuse_bind_group,
       .setVertexBuffer 0,
       .setIndexBuffer .Uint16,
       .drawIndexed 0 self.ibo.len 0 0 1,
       .endRenderPass,
       .submit 1,
       .present ],
     .ok ())

end Rend

namespace MainLoop

/-- `winit::event_loop::ControlFlow` (the variants the source uses). -/
inductive ControlFlow
  | Poll
  | Wait
  | Exit
deriving DecidableEq

/-- The outcome of one `RedrawRequested` arm of the event loop: the renderer
state, the control flow, the GPU ops recorded by `render`, the surface
reconfigurations issued by the error policy, and whether the error was merely
logged (`eprintln`). -/
structure RedrawResult where
  state : Rend.Renderer
  control_flow : ControlFlow
  gpu : List Rend.GpuOp
  effects : List Rend.Effect
  logged : Bool
deriving DecidableEq

/-- `src/main.rs` (the `RedrawRequested` arm of `run`): `update()`, `render()`,
then: `Lost` → `resize(state.size)`; `OutOfMemory` → `ControlFlow::Exit`;
any other error → `eprintln` only. -/
def redraw (state : Rend.Renderer) (control_flow : ControlFlow)
    (acquired : Except Wgpu.SurfaceError Unit) : RedrawResult :=
  let st := state.update
  let r := st.render acquired
  match r.2.2 with
  | .ok _ => ⟨r.1, control_flow, r.2.1, [], false⟩
  | .error .Lost =>
    let p := r.1.resize r.1.size
    ⟨p.1, control_flow, r.2.1, p.2, false⟩
  | .error .OutOfMemory => ⟨r.1, .Exit, r.2.1, [], false⟩
  | .error _ => ⟨r.1, control_flow, r.2.1, [], true⟩

end MainLoop

/-- C10. Both `Buffer::new` implementations store the contents length reduced
mod `2^32` (the `as u32` cast), and the stored count equals the true length
exactly when that length is below `2^32`. -/
theorem C10_buffer_len_cast {α : Type} (device : Nat) (label : Option String)
    (usage : Nat) (contents : List α) :
    (TypesBuffer.Buffer.new device ⟨label, usage, contents⟩).len = contents.length % u32Mod
    ∧ (TypesMod.Buffer.new device ⟨label, usage, contents⟩).len = contents.length % u32Mod
    ∧ ((TypesBuffer.Buffer.new device ⟨label, usage, contents⟩).len = contents.length
        ↔ contents.length < u32Mod)
    ∧ ((TypesMod.Buffer.new device ⟨label, usage, contents⟩).len = contents.length
        ↔ contents.length < u32Mod) := by
  refine ⟨rfl, rfl, ?_, ?_⟩ <;>
  · simp only [TypesBuffer.Buffer.new, TypesMod.Buffer.new]
    constructor
    · intro h
      have hm : contents.length % u32Mod < u32Mod := Nat.mod_lt _ (by norm_num [u32Mod])
      omega
    · intro h
      exact Nat.mod_eq_of_lt h

theorem bigContents_length : bigContents.length = u32Mod :=
  List.length_replicate _ _

attribute [irreducible] bigContents

theorem TypesBuffer.Buffer.new_len {α : Type} (device : Nat)
    (desc : TypesBuffer.BufferInitDescriptor α) :
    (TypesBuffer.Buffer.new device desc).len = desc.contents.length % u32Mod := rfl

theorem bigContents_buffer_len :
    (TypesBuffer.Buffer.new 0 ⟨none, 0, bigContents⟩).len = 0 :=
  Eq.trans (TypesBuffer.Buffer.new_len 0 ⟨none, 0, bigContents⟩)
    (Eq.trans (congrArg (fun n => n % u32Mod) bigContents_length) (Nat.mod_self u32Mod))

/-- C7 counterexample. A buffer built from a list of length `2^32` reports
`len = 0` (not `2^32`) and `is_empty = true`, refuting the claim at that input. -/
theorem C7_counterexample :
    (TypesBuffer.Buffer.new 0 ⟨none, 0, bigContents⟩).len ≠ bigContents.length
    ∧ (TypesBuffer.Buffer.new 0 ⟨none, 0, bigContents⟩).is_empty = true
    ∧ bigContents.length ≠ 0 := by
  have hmod : u32Mod ≠ 0 := by norm_num [u32Mod]
  refine ⟨?_, ?_, ?_⟩
  · intro h
    exact hmod (bigContents_length.symm.trans (h.symm.trans bigContents_buffer_len))
  · exact (congrArg (fun n => n == 0) bigContents_buffer_len).trans rfl
  · intro h
    exact hmod (bigContents_length.symm.trans h)

/-- C7 (amended): for contents of length `n < 2^32`, both `Buffer`
implementations report `len() = n` and `is_empty()` exactly when `n = 0`. -/
theorem C7_buffer_len (device : Nat) (label : Option String) (usage : Nat)
    (contents : List Nat) (h : contents.length < u32Mod) :
    (TypesBuffer.Buffer.new device ⟨label, usage, contents⟩).len = contents.length
    ∧ ((TypesBuffer.Buffer.new device ⟨label, usage, contents⟩).is_empty = true
        ↔ contents.length = 0)
    ∧ (TypesMod.Buffer.new device ⟨label, usage, contents⟩).len = contents.length
    ∧ ((TypesMod.Buffer.new device ⟨label, usage, contents⟩).is_empty = true
        ↔ contents.length = 0) := by
  have hmod : contents.length % u32Mod = contents.length := Nat.mod_eq_of_lt h
  refine ⟨?_, ?_, ?_, ?_⟩ <;>
    simp [TypesBuffer.Buffer.new, TypesBuffer.Buffer.is_empty,
      TypesMod.Buffer.new, TypesMod.Buffer.is_empty, hmod]

theorem Binding.Entry.into_entry_count (e : Binding.Entry) :
    (e.into_entry).1.count
      = (e.resource.arrayLen).bind (fun n => nonZeroU32 (n % u32Mod)) := by
  obtain ⟨b, v, t, r⟩ := e
  cases r <;> rfl

theorem Binding.Group.new_entries (device : Nat) (label : Option String)
    (resources : List Binding.Entry) :
    (Binding.Group.new device label resources).layout_desc.entries
      = resources.map (fun e => (e.into_entry).1)
    ∧ (Binding.Group.new device label resources).bind_entries
      = resources.map (fun e => (e.into_entry).2) := by
  constructor <;> simp [Binding.Group.new, List.unzip_eq_map, List.map_map, Function.comp]

/-- C3 counterexample. For an entry whose resource is an empty `SamplerArray`,
the produced layout entry records no count (`NonZeroU32::new(0)` is `None`),
whereas the claim requires the count to equal the array's length, `0`. -/
theorem C3_counterexample :
    ((Binding.Group.new 0 (some "g")
        [⟨1, Wgpu.ShaderStages.FRAGMENT, Wgpu.BindingType.sampler 0,
          Wgpu.BindingResource.samplerArray []⟩]).layout_desc.entries.map
        (fun e => e.count))
      ≠ [some (List.length ([] : List Nat))] := by
  decide

/-- C3 (amended): bind-group construction with `k` entries produces a layout
with exactly `k` entries; the i-th layout entry keeps the i-th supplied binding
index, visibility and binding type, and its count is `NonZeroU32::new` of the
array length (as `u32`) for array resources — equal to the length when
`0 < len < 2^32`, absent when the reduced length is `0` — and absent for
non-array resources. -/
theorem C3_bind_group_layout (device : Nat) (label : Option String)
    (resources : List Binding.Entry) :
    (Binding.Group.new device label resources).layout_desc.entries.length
        = resources.length
    ∧ (Binding.Group.new device label resources).layout_desc.entries.map
          (fun e => e.binding)
        = resources.map (fun e => e.binding)
    ∧ (Binding.Group.new device label resources).layout_desc.entries.map
          (fun e => e.visibility)
        = resources.map (fun e => e.visibility)
    ∧ (Binding.Group.new device label resources).layout_desc.entries.map
          (fun e => e.ty)
        = resources.map (fun e => e.ty)
    ∧ (Binding.Group.new device label resources).layout_desc.entries.map
          (fun e => e.count)
        = resources.map
            (fun e => (e.resource.arrayLen).bind (fun n => nonZeroU32 (n % u32Mod))) := by
  have hcount : ∀ l : List Binding.Entry,
      l.map (fun e => (e.into_entry).1.count)
        = l.map (fun e => (e.resource.arrayLen).bind (fun n => nonZeroU32 (n % u32Mod))) := by
    intro l
    induction l with
    | nil => rfl
    | cons x xs ih =>
      simp only [List.map_cons, ih, List.cons.injEq, and_true]
      exact Binding.Entry.into_entry_count x
  have h := (Binding.Group.new_entries device label resources).1
  rw [h]
  refine ⟨by simp, ?_, ?_, ?_, ?_⟩ <;> rw [List.map_map]
  · rfl
  · rfl
  · rfl
  · exact hcount resources

/-- C4 counterexample. For a 0×0 source image the recorded `bytes_per_row` is
`None` (`NonZeroU32::new(0)`), not the claimed `4 * width = 0`. -/
theorem C4_counterexample :
    (RTexture.Texture.new 0 0 ⟨none, 1, 1, ⟨0, 0, []⟩⟩ none).write.layout.bytes_per_row
      ≠ some (4 * 0) := by
  decide

/-- C4 (amended): for every source image with positive dimensions `(w+1, h+1)`
and non-overflowing row pitch `4 * (w+1) < 2^32`, both texture constructors
upload with `bytes_per_row = 4 * width`, `rows_per_image = height` and copy
extent `{width, height, 1}`, so that exactly `width * height * 4` bytes are
consumed; and with no sampler configuration supplied, the created sampler uses
repeat addressing on all three axes and nearest filtering throughout. -/
theorem C4_texture_upload (label : Option String) (mip sample usage w h : Nat)
    (data : List Nat) (sdesc : Option Wgpu.SamplerDescriptor)
    (h4w : 4 * (w + 1) < u32Mod) :
    (RTexture.Texture.new 0 0 ⟨label, mip, sample, ⟨w + 1, h + 1, data⟩⟩ sdesc).write.layout.bytes_per_row
        = some (4 * (w + 1))
    ∧ (RTexture.Texture.new 0 0 ⟨label, mip, sample, ⟨w + 1, h + 1, data⟩⟩ sdesc).write.layout.rows_per_image
        = some (h + 1)
    ∧ (RTexture.Texture.new 0 0 ⟨label, mip, sample, ⟨w + 1, h + 1, data⟩⟩ sdesc).write.size
        = ⟨w + 1, h + 1, 1⟩
    ∧ (RTexture.Texture.new 0 0 ⟨label, mip, sample, ⟨w + 1, h + 1, data⟩⟩ sdesc).write.data_len
        = data.length
    ∧ Wgpu.ImageDataLayout.copiedBytes
          (RTexture.Texture.new 0 0 ⟨label, mip, sample, ⟨w + 1, h + 1, data⟩⟩ sdesc).write.layout
          (RTexture.Texture.new 0 0 ⟨label, mip, sample, ⟨w + 1, h + 1, data⟩⟩ sdesc).write.size
        = (w + 1) * (h + 1) * 4
    ∧ (TextureMod.Texture.new 0 0 ⟨label, mip, sample, usage, ⟨w + 1, h + 1, data⟩⟩ sdesc).write
        = (RTexture.Texture.new 0 0 ⟨label, mip, sample, ⟨w + 1, h + 1, data⟩⟩ sdesc).write
    ∧ (RTexture.Texture.new 0 0 ⟨label, mip, sample, ⟨w + 1, h + 1, data⟩⟩ none).sampler
        = ⟨.Repeat, .Repeat, .Repeat, .Nearest, .Nearest, .Nearest, none, none, none⟩
    ∧ (TextureMod.Texture.new 0 0 ⟨label, mip, sample, usage, ⟨w + 1, h + 1, data⟩⟩ none).sampler
        = ⟨.Repeat, .Repeat, .Repeat, .Nearest, .Nearest, .Nearest, none, none, none⟩ := by
  have hmod : (4 * (w + 1)) % u32Mod = 4 * (w + 1) := Nat.mod_eq_of_lt h4w
  refine ⟨?_, ?_, rfl, rfl, ?_, rfl, rfl, rfl⟩
  · simp [RTexture.Texture.new, RTexture.TextureDescriptor.size, nonZeroU32, hmod]
  · simp [RTexture.Texture.new, RTexture.TextureDescriptor.size, nonZeroU32]
  · simp [RTexture.Texture.new, RTexture.TextureDescriptor.size, nonZeroU32, hmod,
      Wgpu.ImageDataLayout.copiedBytes]
    ring

/-- C4 witness: the amended statement evaluated on a concrete 2×2 image with 16
bytes of data (`w = h = 1`). -/
theorem C4_texture_upload_witness :
    4 * (1 + 1) < u32Mod
    ∧ ((RTexture.Texture.new 0 0 ⟨some "dirt_texture", 1, 1, ⟨1 + 1, 1 + 1, List.replicate 16 0⟩⟩ none).write.layout.bytes_per_row
        = some (4 * (1 + 1))
      ∧ (RTexture.Texture.new 0 0 ⟨some "dirt_texture", 1, 1, ⟨1 + 1, 1 + 1, List.replicate 16 0⟩⟩ none).write.layout.rows_per_image
        = some (1 + 1)
      ∧ (RTexture.Texture.new 0 0 ⟨some "dirt_texture", 1, 1, ⟨1 + 1, 1 + 1, List.replicate 16 0⟩⟩ none).write.size
        = ⟨1 + 1, 1 + 1, 1⟩
      ∧ (RTexture.Texture.new 0 0 ⟨some "dirt_texture", 1, 1, ⟨1 + 1, 1 + 1, List.replicate 16 0⟩⟩ none).write.data_len
        = (List.replicate 16 0).length
      ∧ Wgpu.ImageDataLayout.copiedBytes
          (RTexture.Texture.new 0 0 ⟨some "dirt_texture", 1, 1, ⟨1 + 1, 1 + 1, List.replicate 16 0⟩⟩ none).write.layout
          (RTexture.Texture.new 0 0 ⟨some "dirt_texture", 1, 1, ⟨1 + 1, 1 + 1, List.replicate 16 0⟩⟩ none).write.size
        = (1 + 1) * (1 + 1) * 4
      ∧ (TextureMod.Texture.new 0 0 ⟨some "dirt_texture", 1, 1, 6, ⟨1 + 1, 1 + 1, List.replicate 16 0⟩⟩ none).write
        = (RTexture.Texture.new 0 0 ⟨some "dirt_texture", 1, 1, ⟨1 + 1, 1 + 1, List.replicate 16 0⟩⟩ none).write
      ∧ (RTexture.Texture.new 0 0 ⟨some "dirt_texture", 1, 1, ⟨1 + 1, 1 + 1, List.replicate 16 0⟩⟩ none).sampler
        = ⟨.Repeat, .Repeat, .Repeat, .Nearest, .Nearest, .Nearest, none, none, none⟩
      ∧ (TextureMod.Texture.new 0 0 ⟨some "dirt_texture", 1, 1, 6, ⟨1 + 1, 1 + 1, List.replicate 16 0⟩⟩ none).sampler
        = ⟨.Repeat, .Repeat, .Repeat, .Nearest, .Nearest, .Nearest, none, none, none⟩) :=
  ⟨by norm_num [u32Mod],
   C4_texture_upload (some "dirt_texture") 1 1 6 1 1 (List.replicate 16 0) none
     (by norm_num [u32Mod])⟩

theorem BindGroupMod.into_entries_toEntry (r : BindGroupMod.BindingResource) :
    r.into_entries = (r.toEntry).into_entry := by
  obtain ⟨b, v, t, res⟩ := r
  cases res <;> rfl

/-- C9 counterexample. On a descriptor whose `usage` is `RENDER_ATTACHMENT`,
the old texture constructor creates the texture with that usage while the new
one hardcodes `TEXTURE_BINDING | COPY_DST`: the two `create_texture` calls
differ. -/
theorem C9_counterexample :
    (TextureMod.Texture.new 0 0
        ⟨none, 1, 1, Wgpu.TextureUsages.RENDER_ATTACHMENT, ⟨1, 1, [0, 0, 0, 0]⟩⟩ none).created
      ≠ (RTexture.Texture.new 0 0 ⟨none, 1, 1, ⟨1, 1, [0, 0, 0, 0]⟩⟩ none).created := by
  decide

/-- C9 (amended): the two bind-group constructors derive, for every input, the
same layout-entry and bind-entry lists and issue the same create calls; the two
texture constructors issue the same upload, view and sampler calls for every
input, and the same `create_texture` call exactly when the old descriptor's
caller-supplied `usage` equals the `TEXTURE_BINDING | COPY_DST` value the new
constructor hardcodes. -/
theorem C9_wrapper_equivalence (device queue : Nat) (label : Option String)
    (resources : List BindGroupMod.BindingResource) (tlabel : Option String)
    (mip sample usage : Nat) (img : Wgpu.DynamicImage)
    (sdesc : Option Wgpu.SamplerDescriptor) :
    BindGroupMod.BindGroup.new device (BindGroupMod.BindGroupDescriptor.new label resources)
        = Binding.Group.new device label (resources.map BindGroupMod.BindingResource.toEntry)
    ∧ (TextureMod.Texture.new device queue ⟨tlabel, mip, sample, usage, img⟩ sdesc).write
        = (RTexture.Texture.new device queue ⟨tlabel, mip, sample, img⟩ sdesc).write
    ∧ (TextureMod.Texture.new device queue ⟨tlabel, mip, sample, usage, img⟩ sdesc).sampler
        = (RTexture.Texture.new device queue ⟨tlabel, mip, sample, img⟩ sdesc).sampler
    ∧ (TextureMod.Texture.new device queue ⟨tlabel, mip, sample, usage, img⟩ sdesc).view_default
        = (RTexture.Texture.new device queue ⟨tlabel, mip, sample, img⟩ sdesc).view_default
    ∧ ((TextureMod.Texture.new device queue ⟨tlabel, mip, sample, usage, img⟩ sdesc).created
          = (RTexture.Texture.new device queue ⟨tlabel, mip, sample, img⟩ sdesc).created
        ↔ usage = (Wgpu.TextureUsages.TEXTURE_BINDING ||| Wgpu.TextureUsages.COPY_DST)) := by
  have hmap : ∀ l : List BindGroupMod.BindingResource,
      l.map BindGroupMod.BindingResource.into_entries
        = l.map (fun r => (r.toEntry).into_entry) := by
    intro l
    induction l with
    | nil => rfl
    | cons x xs ih =>
      simp only [List.map_cons, ih, List.cons.injEq, and_true]
      exact BindGroupMod.into_entries_toEntry x
  refine ⟨?_, rfl, rfl, rfl, ?_⟩
  · simp [BindGroupMod.BindGroup.new, BindGroupMod.BindGroupDescriptor.new,
      Binding.Group.new, List.map_map, hmap]
  · simp [TextureMod.Texture.new, RTexture.Texture.new,
      TextureMod.TextureDescriptor.get_raw, RTexture.TextureDescriptor.as_raw,
      TextureMod.TextureDescriptor.get_size, RTexture.TextureDescriptor.size,
      Wgpu.TextureDescriptor.mk.injEq]

/-- C7 witness: the amended statement evaluated on a concrete 3-element list. -/
theorem C7_buffer_len_witness :
    (TypesBuffer.Buffer.new 0 ⟨some "Vertex Buffer", 32, [5, 6, 7]⟩).len = 3
    ∧ (TypesBuffer.Buffer.new 0 ⟨some "Vertex Buffer", 32, [5, 6, 7]⟩).is_empty = false := by
  have h := C7_buffer_len 0 (some "Vertex Buffer") 32 [5, 6, 7] (by norm_num [u32Mod])
  refine ⟨h.1, ?_⟩
  have h2 := h.2.1
  simp at h2
  simp [h2]

/-- C1. For strictly positive dimensions (any `(w+1, h+1)`), `resize` sets the
stored size and the surface configuration's width/height to exactly those
values and issues one surface reconfiguration with the updated config; for any
input with a zero component it returns the renderer unchanged and issues no
reconfiguration. -/
theorem C1_resize (r : Rend.Renderer) (w h : Nat) :
    r.resize ⟨w + 1, h + 1⟩
        = ({ r with
              size := ⟨w + 1, h + 1⟩
              config := { r.config with width := w + 1, height := h + 1 } },
           [Rend.Effect.configureSurface r.device
              { r.config with width := w + 1, height := h + 1 }])
    ∧ r.resize ⟨0, h⟩ = (r, [])
    ∧ r.resize ⟨w, 0⟩ = (r, []) := by
  refine ⟨?_, ?_, ?_⟩ <;> simp [Rend.Renderer.resize]

/-- C2. A successful `render` of a renderer whose index buffer is the one
`get_data` builds records exactly one indexed draw — of index range `0..6` and
instance range `0..1` — and exactly one submission of a single command buffer,
and the present comes after the submit. -/
theorem C2_render_draw (r : Rend.Renderer) (device : Nat)
    (h : r.ibo = (Rend.get_data device).2) :
    ((r.render (.ok ())).2.1).filter Rend.GpuOp.isDraw
        = [Rend.GpuOp.drawIndexed 0 6 0 0 1]
    ∧ ((r.render (.ok ())).2.1).filter Rend.GpuOp.isSubmit = [Rend.GpuOp.submit 1]
    ∧ ((r.render (.ok ())).2.1).findIdx Rend.GpuOp.isSubmit
        < ((r.render (.ok ())).2.1).findIdx Rend.GpuOp.isPresent
    ∧ Rend.GpuOp.present ∈ (r.render (.ok ())).2.1 := by
  have hlen : r.ibo.len = 6 := by rw [h]; rfl
  refine ⟨?_, ?_, ?_, ?_⟩ <;>
    simp [Rend.Renderer.render, Rend.GpuOp.isDraw, Rend.GpuOp.isSubmit,
      Rend.GpuOp.isPresent, hlen, List.filter, List.findIdx, List.findIdx.go]

/-- C2 witness: the property evaluated on a concrete renderer holding the
buffers `get_data` returns. -/
theorem C2_render_draw_witness :
    ((Rend.Renderer.mk 0 0 0 ⟨16, 0, 800, 600, .Fifo⟩ ⟨800, 600⟩ 0
        (Rend.get_data 0).1 (Rend.get_data 0).2 0).render (.ok ())).2.1.filter
        Rend.GpuOp.isDraw
      = [Rend.GpuOp.drawIndexed 0 6 0 0 1] :=
  (C2_render_draw
    (Rend.Renderer.mk 0 0 0 ⟨16, 0, 800, 600, .Fifo⟩ ⟨800, 600⟩ 0
      (Rend.get_data 0).1 (Rend.get_data 0).2 0) 0 rfl).1

/-- C5. A frame is atomic: a failed acquisition returns the error with the
renderer completely unchanged and no operation recorded (in particular no
submit and no present); a successful call leaves the state unchanged, submits
exactly one command buffer, presents, and returns `Ok`. -/
theorem C5_render_atomic (r : Rend.Renderer) (e : Wgpu.SurfaceError) :
    r.render (.error e) = (r, [], .error e)
    ∧ (r.render (.ok ())).1 = r
    ∧ ((r.render (.ok ())).2.1).filter Rend.GpuOp.isSubmit = [Rend.GpuOp.submit 1]
    ∧ Rend.GpuOp.present ∈ (r.render (.ok ())).2.1
    ∧ (r.render (.ok ())).2.2 = .ok () := by
  refine ⟨rfl, rfl, ?_, ?_, rfl⟩ <;>
    simp [Rend.Renderer.render, Rend.GpuOp.isSubmit, List.filter]

/-- C6. The event loop's render-error policy: `Lost` triggers exactly a
`resize` with the last stored size (same state change and reconfiguration,
control flow untouched); `OutOfMemory` sets `ControlFlow::Exit` with no state
change; `Timeout` and `Outdated` are only logged — no state change, no
reconfiguration, no exit. -/
theorem C6_loop_error_policy (s : Rend.Renderer) (cf : MainLoop.ControlFlow) :
    MainLoop.redraw s cf (.error .Lost)
        = ⟨(s.resize s.size).1, cf, [], (s.resize s.size).2, false⟩
    ∧ MainLoop.redraw s cf (.error .OutOfMemory) = ⟨s, .Exit, [], [], false⟩
    ∧ MainLoop.redraw s cf (.error .Timeout) = ⟨s, cf, [], [], true⟩
    ∧ MainLoop.redraw s cf (.error .Outdated) = ⟨s, cf, [], [], true⟩ :=
  ⟨rfl, rfl, rfl, rfl⟩

/-- C8 counterexample. The component counts of the two declared vertex
attributes are `[3, 3]`, not `[3, 4]`: attribute 1 is `Float32x3` although the
second struct field (`color`) holds 4 floats. -/
theorem C8_counterexample :
    TypesMod.Vertex.buffer_layout.attributes.map (fun a => a.format.components)
      ≠ [TypesMod.Vertex.position_floats, TypesMod.Vertex.color_floats] := by
  decide

/-- C8 (amended): the layout's stride equals `size_of::<Vertex>() = 28`, the
step mode is per-vertex, attribute 0 is a 3-float vector at offset 0 (the
position field) with shader location 0, and attribute 1 is declared as a
3-float vector at the color field's offset 12 with shader location 1 — even
though the `color` field itself holds 4 floats. -/
theorem C8_vertex_layout :
    TypesMod.Vertex.buffer_layout.array_stride = TypesMod.Vertex.size_of
    ∧ TypesMod.Vertex.size_of = 28
    ∧ TypesMod.Vertex.buffer_layout.step_mode = .Vertex
    ∧ TypesMod.Vertex.buffer_layout.attributes.map (fun a => a.format.components)
        = [TypesMod.Vertex.position_floats, 3]
    ∧ TypesMod.Vertex.buffer_layout.attributes.map (fun a => a.offset)
        = [0, TypesMod.Vertex.color_offset]
    ∧ TypesMod.Vertex.buffer_layout.attributes.map (fun a => a.shader_location)
        = [0, 1] := by
  decide

end Mixcraft
